import Mathlib

/-!
Shallow embedding of the roc repository's value decoder
(`crates/repl_expect/src/app.rs`) and of the editor AST node types
(`editor/src/ast.rs`), together with theorems settling the spec claims.

Modelling conventions:
* The foreign address space reached through `ExpectMemory.start` is a total
  function from byte address to stored byte value; a byte is read modulo 256.
* The target is 64-bit (`usize` is 8 bytes), matching the spec's
  "24 bytes on a 64-bit target" slot width.
* Machine integers are `Nat` (unsigned) or `Int` (signed, via two's-complement
  reinterpretation `toSigned`); `f32`/`f64` reads are pure bit
  reinterpretations in the source, so they are modelled as the 32- or 64-bit
  pattern they read (no floating-point arithmetic occurs anywhere).
* Rust methods taking `&mut self` are embedded with explicit state passing:
  they return their result paired with the (possibly updated) receiver.
* `std::ptr::read` (used by `call_function`) requires its address to be
  aligned for the value type; this undefined-behaviour precondition is
  embedded by returning `Option`: `none` models the unaligned (UB) case.
  `std::ptr::read_unaligned` (used by the `deref_*` primitives) has no such
  precondition, so those are total.
-/

namespace RocVerify

/-- The raw foreign byte buffer: a total map from byte address to stored
byte. Reads take the stored value modulo 256. -/
def Mem : Type := Nat → Nat

/-- Point update of one byte of a memory. -/
def Mem.update (m : Mem) (a b : Nat) : Mem :=
  fun i => if i = a then b else m i

/-- The byte stored at address `a`. -/
def byteAt (m : Mem) (a : Nat) : Nat := m a % 256

/-- Little-endian read of `n` bytes starting at address `a`
(models `std::ptr::read_unaligned` of an `n`-byte unsigned integer). -/
def readLE (m : Mem) (a : Nat) : Nat → Nat
  | 0 => 0
  | n + 1 => byteAt m a + 256 * readLE m (a + 1) n

/-- Little-endian write of the low `n` bytes of `v` starting at address `a`. -/
def writeLE : Mem → Nat → Nat → Nat → Mem
  | m, _, 0, _ => m
  | m, a, n + 1, v => writeLE (m.update a (v % 256)) (a + 1) n (v / 256)

/-- `writeLE` touches only the addresses `a, a+1, …, a+n-1`: everything
below `a` is preserved. -/
theorem writeLE_lt (n : Nat) : ∀ (m : Mem) (a v i : Nat), i < a →
    writeLE m a n v i = m i := by
  induction n with
  | zero => intro m a v i _; rfl
  | succ n ih =>
    intro m a v i hi
    show writeLE (m.update a (v % 256)) (a + 1) n (v / 256) i = m i
    rw [ih _ _ _ _ (Nat.lt_succ_of_lt hi)]
    simp only [Mem.update]
    rw [if_neg (Nat.ne_of_lt hi)]

/-- Round trip: reading back `n` bytes just written little-endian at any
address (aligned or not) recovers the written value modulo `256 ^ n`. -/
theorem readLE_writeLE (n : Nat) : ∀ (m : Mem) (a v : Nat),
    readLE (writeLE m a n v) a n = v % 256 ^ n := by
  induction n with
  | zero => intro m a v; simp [readLE, Nat.mod_one]
  | succ n ih =>
    intro m a v
    show byteAt (writeLE (m.update a (v % 256)) (a + 1) n (v / 256)) a + 256 *
        readLE (writeLE (m.update a (v % 256)) (a + 1) n (v / 256)) (a + 1) n
      = v % 256 ^ (n + 1)
    rw [ih]
    have h1 : writeLE (m.update a (v % 256)) (a + 1) n (v / 256) a = v % 256 := by
      rw [writeLE_lt n _ _ _ _ (Nat.lt_succ_self a)]
      simp [Mem.update]
    unfold byteAt
    rw [h1, Nat.mod_mod_of_dvd v (dvd_refl 256)]
    rw [Nat.pow_succ, Nat.mul_comm (256 ^ n) 256, Nat.mod_mul]

/-- Round trip restated with the modulus as a power of two:
`n` bytes hold exactly `8 * n` bits. -/
theorem readLE_writeLE_pow (n : Nat) (m : Mem) (a v : Nat) :
    readLE (writeLE m a n v) a n = v % 2 ^ (8 * n) := by
  rw [readLE_writeLE, show (256 : Nat) = 2 ^ 8 from rfl, ← pow_mul]

/-- Two's-complement reinterpretation of a `w`-bit unsigned value as a
signed integer. -/
def toSigned (w v : Nat) : Int :=
  if v < 2 ^ (w - 1) then (v : Int) else (v : Int) - 2 ^ w

/-- Byte width of `usize` on the modelled 64-bit target. -/
def usizeBytes : Nat := 8

/-- `ExpectMemory` from `crates/repl_expect/src/app.rs`: a read-only view of
the executed program's address space, held as the base of the buffer. The
source's base pointer plus byte offset is modelled by indexing `start`
directly with the offset. -/
structure ExpectMemory where
  start : Mem

/-- `deref_bool` (via the `deref_number!` macro): an unaligned 1-byte read
reinterpreted as `bool`. -/
def ExpectMemory.deref_bool (self : ExpectMemory) (addr : Nat) : Bool :=
  byteAt self.start addr != 0

/-- `deref_u8`: unaligned 1-byte read. -/
def ExpectMemory.deref_u8 (self : ExpectMemory) (addr : Nat) : Nat :=
  readLE self.start addr 1

/-- `deref_u16`: unaligned 2-byte read. -/
def ExpectMemory.deref_u16 (self : ExpectMemory) (addr : Nat) : Nat :=
  readLE self.start addr 2

/-- `deref_u32`: unaligned 4-byte read. -/
def ExpectMemory.deref_u32 (self : ExpectMemory) (addr : Nat) : Nat :=
  readLE self.start addr 4

/-- `deref_u64`: unaligned 8-byte read. -/
def ExpectMemory.deref_u64 (self : ExpectMemory) (addr : Nat) : Nat :=
  readLE self.start addr 8

/-- `deref_u128`: unaligned 16-byte read. -/
def ExpectMemory.deref_u128 (self : ExpectMemory) (addr : Nat) : Nat :=
  readLE self.start addr 16

/-- `deref_usize`: unaligned machine-word read (8 bytes on the 64-bit
target). -/
def ExpectMemory.deref_usize (self : ExpectMemory) (addr : Nat) : Nat :=
  readLE self.start addr usizeBytes

/-- `deref_i8`: unaligned 1-byte read, two's-complement signed. -/
def ExpectMemory.deref_i8 (self : ExpectMemory) (addr : Nat) : Int :=
  toSigned 8 (readLE self.start addr 1)

/-- `deref_i16`: unaligned 2-byte read, two's-complement signed. -/
def ExpectMemory.deref_i16 (self : ExpectMemory) (addr : Nat) : Int :=
  toSigned 16 (readLE self.start addr 2)

/-- `deref_i32`: unaligned 4-byte read, two's-complement signed. -/
def ExpectMemory.deref_i32 (self : ExpectMemory) (addr : Nat) : Int :=
  toSigned 32 (readLE self.start addr 4)

/-- `deref_i64`: unaligned 8-byte read, two's-complement signed. -/
def ExpectMemory.deref_i64 (self : ExpectMemory) (addr : Nat) : Int :=
  toSigned 64 (readLE self.start addr 8)

/-- `deref_i128`: unaligned 16-byte read, two's-complement signed. -/
def ExpectMemory.deref_i128 (self : ExpectMemory) (addr : Nat) : Int :=
  toSigned 128 (readLE self.start addr 16)

/-- `deref_isize`: unaligned signed machine-word read. -/
def ExpectMemory.deref_isize (self : ExpectMemory) (addr : Nat) : Int :=
  toSigned (8 * usizeBytes) (readLE self.start addr usizeBytes)

/-- `deref_f32`: unaligned 4-byte read; the source reinterprets the bits as
`f32`, so the value is modelled as its 32-bit pattern. -/
def ExpectMemory.deref_f32 (self : ExpectMemory) (addr : Nat) : Nat :=
  readLE self.start addr 4

/-- `deref_f64`: unaligned 8-byte read; the source reinterprets the bits as
`f64`, so the value is modelled as its 64-bit pattern. -/
def ExpectMemory.deref_f64 (self : ExpectMemory) (addr : Nat) : Nat :=
  readLE self.start addr 8

/-- The contiguous run of `n` raw bytes starting at address `a`. A decoded
string is modelled as its byte sequence (the source hands the bytes to
`str` without copying or validating them). -/
def readBytes (m : Mem) (a n : Nat) : List Nat :=
  (List.range n).map (fun i => byteAt m (a + i))

/-- `WIDTH` in `deref_str`: `3 * size_of::<usize>()`, the fixed string slot
width (24 bytes on the 64-bit target). -/
def STR_WIDTH : Nat := 3 * usizeBytes

/-- Modelled from the spec: `RocStr::as_str` on an inline small string (crate
`roc_std` is not under `src/`). The spec: the slot holds an inline small
string payload decoded directly from the slot bytes, with the length derived
from the remaining bits of the tag byte — i.e. the low 7 bits of the
highest-addressed slot byte, the payload being that many leading slot
bytes. -/
def rocStrSmallAsStr (m : Mem) (addr : Nat) : List Nat :=
  readBytes m addr (byteAt m (addr + STR_WIDTH - 1) % 128)

/-- `deref_str` from `crates/repl_expect/src/app.rs`: reads the 24-byte slot
at `addr`; if the signed highest-addressed byte is negative the slot is an
inline small string, otherwise it is `(offset, length, capacity)` words and
the string bytes are the `length` raw bytes at `base + offset`. -/
def ExpectMemory.deref_str (self : ExpectMemory) (addr : Nat) : List Nat :=
  let last_byte := self.deref_i8 (addr + STR_WIDTH - 1)
  let is_small := last_byte < 0
  if is_small then
    rocStrSmallAsStr self.start addr
  else
    let offset := self.deref_usize addr
    let length := self.deref_usize (addr + usizeBytes)
    let _capacity := self.deref_usize (addr + 2 * usizeBytes)
    readBytes self.start offset length

/-- Written from the spec's words, for the refinement claim C1: inspect the
sign bit of the highest-addressed byte of the 3-word slot; if set, decode an
inline small string whose length is the remaining bits of that tag byte;
otherwise the slot is (relative offset, length, capacity) words and the
result is the `length` bytes at `base + offset` — the capacity word is never
consulted. -/
def deref_str_spec (self : ExpectMemory) (addr : Nat) : List Nat :=
  let tag := byteAt self.start (addr + STR_WIDTH - 1)
  if 128 ≤ tag then
    readBytes self.start addr (tag - 128)
  else
    readBytes self.start (readLE self.start addr usizeBytes)
      (readLE self.start (addr + usizeBytes) usizeBytes)

/-- `TargetInfo` (crate `roc_target`): opaque to this decoder, which ignores
its `_target_info` argument. -/
abbrev TargetInfo : Type := Unit

/-- `ExpectReplApp` from `crates/repl_expect/src/app.rs`: the decoder's only
state, a memory view and the stored result offset. -/
structure ExpectReplApp where
  memory : ExpectMemory
  offset : Nat

/-- `call_function`: reads a `Return` value at `memory.start + offset` with
`std::ptr::read` and hands it to `transform`. The embedding is generic over
the Rust type `Return` through `reader` (the typed load it performs) and
`retAlign` (its alignment): `std::ptr::read` requires an aligned address, so
an unaligned offset — undefined behaviour in the source — yields `none`.
`&mut self` is embedded by returning the receiver alongside the result. -/
def call_function {R T : Type} (self : ExpectReplApp) (retAlign : Nat)
    (reader : ExpectMemory → Nat → R) (_mainFnName : String)
    (transform : ExpectMemory → R → T) : Option T × ExpectReplApp :=
  (if self.offset % retAlign = 0 then
      some (transform self.memory (reader self.memory self.offset))
    else none,
   self)

/-- The typed load of a Rust `(usize, usize, usize)` tuple: three consecutive
machine words. -/
def readUsizeTriple (m : ExpectMemory) (addr : Nat) : Nat × Nat × Nat :=
  (m.deref_usize addr, m.deref_usize (addr + usizeBytes),
    m.deref_usize (addr + 2 * usizeBytes))

/-- `call_function_returns_roc_list`: delegates to `call_function` at the
Rust type `Return = (usize, usize, usize)` (word alignment, triple load). -/
def call_function_returns_roc_list {T : Type} (self : ExpectReplApp)
    (mainFnName : String) (transform : ExpectMemory → Nat × Nat × Nat → T) :
    Option T × ExpectReplApp :=
  call_function self usizeBytes readUsizeTriple mainFnName transform

/-- `call_function_dynamic_size`: ignores `_main_fn_name` and `_ret_bytes`
and applies `transform` to the memory and the stored offset, reading no
memory itself. -/
def call_function_dynamic_size {T : Type} (self : ExpectReplApp)
    (_mainFnName : String) (_retBytes : Nat)
    (transform : ExpectMemory → Nat → T) : T × ExpectReplApp :=
  (transform self.memory self.offset, self)

/-- `call_function_returns_roc_str`: ignores `_target_info` and delegates to
`call_function_dynamic_size` with the fixed 24-byte string slot size. -/
def call_function_returns_roc_str {T : Type} (self : ExpectReplApp)
    (_targetInfo : TargetInfo) (mainFnName : String)
    (transform : ExpectMemory → Nat → T) : T × ExpectReplApp :=
  call_function_dynamic_size self mainFnName 24 transform

/-! ### Editor AST (`editor/src/ast.rs`)

Handles are opaque pool-relative indices; the Rust phantom element-type
parameters of `NodeId<T>` and `PoolVec<T>` carry no data and are erased in
the embedding. Externally owned identifier types (`Variable`, `Symbol`,
`CalledVia`, `LowLevel`, `Recursive`, `PatternId`, `TypeId`) are stored and
forwarded, never interpreted, so they are modelled as their index values. -/

/-- `roc_types::subs::Variable`: an opaque 4-byte type-inference variable. -/
abbrev Variable : Type := Nat

/-- `roc_module::symbol::Symbol`: an opaque 8-byte resolved name. -/
abbrev Symbol : Type := Nat

/-- `NodeId<T>` from `editor/src/pool.rs` (phantom `T` erased): an opaque
4-byte index into the pool that issued it. -/
abbrev NodeId : Type := Nat

/-- `PatternId = NodeId<Pattern2>`. -/
abbrev PatternId : Type := NodeId

/-- `TypeId = NodeId<Type2>`. -/
abbrev TypeId : Type := NodeId

/-- `PoolStr` from `editor/src/pool.rs` (not under `src/`); per the spec it
is an (offset, length) pair into the pool's side byte buffer. -/
structure PoolStr where
  first_node_id : Nat
  len : Nat

/-- `PoolVec<T>` from `editor/src/pool.rs` (not under `src/`, phantom `T`
erased); per the spec it is an (offset, length) pair describing a contiguous
run of nodes. -/
structure PoolVec where
  first_node_id : Nat
  len : Nat

/-- Modelled from the spec: `ShallowClone for PoolVec` (file
`editor/src/pool.rs` is not under `src/`). The shallow duplicate copies the
handle values only — it does not follow them to duplicate the referenced
elements, so the clone describes the same run. -/
def PoolVec.shallow_clone (self : PoolVec) : PoolVec :=
  ⟨self.first_node_id, self.len⟩

/-- `IntStyle` from `editor/src/ast.rs`. -/
inductive IntStyle where
  | Decimal
  | Octal
  | Hex
  | Binary

/-- `IntVal` from `editor/src/ast.rs`: a literal that fits in 64 bits, with
its width class. Signed payloads are `Int`, unsigned are `Nat`. -/
inductive IntVal where
  | I64 (v : Int)
  | U64 (v : Nat)
  | I32 (v : Int)
  | U32 (v : Nat)
  | I16 (v : Int)
  | U16 (v : Nat)
  | I8 (v : Int)
  | U8 (v : Nat)

/-- `FloatVal` from `editor/src/ast.rs`; the float payloads are modelled as
their IEEE-754 bit patterns. -/
inductive FloatVal where
  | F64 (bits : Nat)
  | F32 (bits : Nat)

/-- `Rigids` from `editor/src/ast.rs`: named and unnamed generalized type
variables, as pooled runs. -/
structure Rigids where
  named : PoolVec
  unnamed : PoolVec

/-- `ShallowClone for Rigids` (`editor/src/ast.rs`). -/
def Rigids.shallow_clone (self : Rigids) : Rigids :=
  ⟨self.named.shallow_clone, self.unnamed.shallow_clone⟩

/-- `ValueDef` from `editor/src/ast.rs`. -/
structure ValueDef where
  pattern : PatternId
  expr_type : Option (TypeId × Rigids)
  expr_var : Variable

/-- `ShallowClone for ValueDef` (`editor/src/ast.rs`). -/
def ValueDef.shallow_clone (self : ValueDef) : ValueDef :=
  ⟨self.pattern,
    match self.expr_type with
    | some (id, rigids) => some (id, rigids.shallow_clone)
    | none => none,
    self.expr_var⟩

/-- `FunctionDef` from `editor/src/ast.rs`: annotated or unannotated
function definition. -/
inductive FunctionDef where
  | WithAnnotation (name : Symbol) (arguments : PoolVec) (rigids : NodeId)
      (return_type : TypeId)
  | NoAnnotation (name : Symbol) (arguments : PoolVec) (return_var : Variable)

/-- `ShallowClone for FunctionDef` (`editor/src/ast.rs`). -/
def FunctionDef.shallow_clone : FunctionDef → FunctionDef
  | WithAnnotation name arguments rigids return_type =>
      WithAnnotation name arguments.shallow_clone rigids return_type
  | NoAnnotation name arguments return_var =>
      NoAnnotation name arguments.shallow_clone return_var

/-- `Expr2` from `editor/src/ast.rs`: the compact expression union. External
payload types are modelled by their opaque index values; `SmallStr` holds
the inline bytes of an `ArrayString<U30>`. -/
inductive Expr2 where
  | SmallInt (number : IntVal) (var : Variable) (style : IntStyle)
      (text : PoolStr)
  | I128 (number : Int) (var : Variable) (style : IntStyle) (text : PoolStr)
  | U128 (number : Nat) (var : Variable) (style : IntStyle) (text : PoolStr)
  | Float (number : FloatVal) (var : Variable)
  | SmallStr (bytes : List Nat)
  | Str (text : PoolStr)
  | Var (symbol : Symbol)
  | List (list_var : Variable) (elem_var : Variable) (elems : PoolVec)
  | If (cond_var : Variable) (expr_var : Variable) (branches : PoolVec)
      (final_else : NodeId)
  | When (cond_var : Variable) (expr_var : Variable) (branches : PoolVec)
      (cond : NodeId)
  | LetRec (defs : PoolVec) (body_var : Variable) (body_id : NodeId)
  | LetFunction (def_id : NodeId) (body_var : Variable) (body_id : NodeId)
  | LetValue (def_id : NodeId) (body_id : NodeId) (body_var : Variable)
  | Call (args : PoolVec) (expr : NodeId) (expr_var : Variable)
      (fn_var : Variable) (closure_var : Variable) (called_via : Nat)
  | RunLowLevel (op : Nat) (args : PoolVec) (ret_var : Variable)
  | Closure (args : PoolVec) (name : Symbol) (body : NodeId)
      (function_type : Variable) (recursive : Nat) (extra : NodeId)
  | Record (record_var : Variable) (fields : PoolVec)
  | EmptyRecord
  | Access (field : PoolStr) (expr : NodeId) (record_var : Variable)
      (ext_var : Variable) (field_var : Variable)
  | Accessor (function_var : Variable) (closure_var : Variable)
      (field : PoolStr) (record_var : Variable) (ext_var : Variable)
      (field_var : Variable)
  | Update (symbol : Symbol) (updates : PoolVec) (record_var : Variable)
      (ext_var : Variable)
  | GlobalTag (name : PoolStr) (variant_var : Variable) (ext_var : Variable)
      (arguments : PoolVec)
  | PrivateTag (name : Symbol) (variant_var : Variable) (ext_var : Variable)
      (arguments : PoolVec)
  | RuntimeError

/-! Byte widths of the field types of `Expr2`, from the layout recorded in
`editor/src/ast.rs` (the per-field annotations there and the
`size_of_intval` test asserting `size_of::<IntVal>() == 16`). -/

/-- Bytes of `Variable` (a 4-byte index). -/
def variableBytes : Nat := 4

/-- Bytes of `Symbol` (an 8-byte identifier). -/
def symbolBytes : Nat := 8

/-- Bytes of `NodeId<T>` (a 4-byte pool index). -/
def nodeIdBytes : Nat := 4

/-- Bytes of `PoolStr`: two 4-byte fields (offset, length). -/
def poolStrBytes : Nat := 8

/-- Bytes of `PoolVec<T>`: two 4-byte fields (offset, length). -/
def poolVecBytes : Nat := 8

/-- Bytes of `IntVal` (asserted by the `size_of_intval` test). -/
def intValBytes : Nat := 16

/-- Bytes of `IntStyle` (a fieldless 4-variant enum). -/
def intStyleBytes : Nat := 1

/-- Bytes of `FloatVal` (tagged `f64`, per the `// 16B` annotation). -/
def floatValBytes : Nat := 16

/-- Bytes of an `i128` or `u128` payload. -/
def i128Bytes : Nat := 16

/-- Bytes of `ArrayString<U30>`: a length byte plus 30 content bytes. -/
def arrayString30Bytes : Nat := 31

/-- Bytes of `CalledVia` (per the `// 2B` annotation). -/
def calledViaBytes : Nat := 2

/-- Bytes of `LowLevel` (a fieldless builtin-op enum, `// 1B`). -/
def lowLevelBytes : Nat := 1

/-- Bytes of `Recursive` (a fieldless 3-variant enum, `// 1B`). -/
def recursiveBytes : Nat := 1

/-- The payload bytes of an `Expr2` variant: the sum of its field widths
(the data that must fit beside the 1-byte discriminant). -/
def payloadBytes : Expr2 → Nat
  | .SmallInt _ _ _ _ => intValBytes + variableBytes + intStyleBytes + poolStrBytes
  | .I128 _ _ _ _ => i128Bytes + variableBytes + intStyleBytes + poolStrBytes
  | .U128 _ _ _ _ => i128Bytes + variableBytes + intStyleBytes + poolStrBytes
  | .Float _ _ => floatValBytes + variableBytes
  | .SmallStr _ => arrayString30Bytes
  | .Str _ => poolStrBytes
  | .Var _ => symbolBytes
  | .List _ _ _ => variableBytes + variableBytes + poolVecBytes
  | .If _ _ _ _ => variableBytes + variableBytes + poolVecBytes + nodeIdBytes
  | .When _ _ _ _ => variableBytes + variableBytes + poolVecBytes + nodeIdBytes
  | .LetRec _ _ _ => poolVecBytes + variableBytes + nodeIdBytes
  | .LetFunction _ _ _ => nodeIdBytes + variableBytes + nodeIdBytes
  | .LetValue _ _ _ => nodeIdBytes + nodeIdBytes + variableBytes
  | .Call _ _ _ _ _ _ => poolVecBytes + nodeIdBytes + variableBytes +
      variableBytes + variableBytes + calledViaBytes
  | .RunLowLevel _ _ _ => lowLevelBytes + poolVecBytes + variableBytes
  | .Closure _ _ _ _ _ _ => poolVecBytes + symbolBytes + nodeIdBytes +
      variableBytes + recursiveBytes + nodeIdBytes
  | .Record _ _ => variableBytes + poolVecBytes
  | .EmptyRecord => 0
  | .Access _ _ _ _ _ => poolStrBytes + nodeIdBytes + variableBytes +
      variableBytes + variableBytes
  | .Accessor _ _ _ _ _ _ => variableBytes + variableBytes + poolStrBytes +
      variableBytes + variableBytes + variableBytes
  | .Update _ _ _ _ => symbolBytes + poolVecBytes + variableBytes + variableBytes
  | .GlobalTag _ _ _ _ => poolStrBytes + variableBytes + variableBytes +
      poolVecBytes
  | .PrivateTag _ _ _ _ => symbolBytes + variableBytes + variableBytes +
      poolVecBytes
  | .RuntimeError => 0

/-- Modelled from the spec: `NODE_BYTES` from `editor/src/pool.rs` (not
under `src/`), the fixed node budget — 32 bytes, per the doc comment on
`Expr2` ("An Expr that fits in 32B") and the spec's reference design. -/
def NODE_BYTES : Nat := 32

/-- One representative of every `Expr2` variant (payload values are
irrelevant to size). -/
def expr2Variants : List Expr2 :=
  [.SmallInt (.I64 0) 0 .Decimal ⟨0, 0⟩,
   .I128 0 0 .Decimal ⟨0, 0⟩,
   .U128 0 0 .Decimal ⟨0, 0⟩,
   .Float (.F64 0) 0,
   .SmallStr [],
   .Str ⟨0, 0⟩,
   .Var 0,
   .List 0 0 ⟨0, 0⟩,
   .If 0 0 ⟨0, 0⟩ 0,
   .When 0 0 ⟨0, 0⟩ 0,
   .LetRec ⟨0, 0⟩ 0 0,
   .LetFunction 0 0 0,
   .LetValue 0 0 0,
   .Call ⟨0, 0⟩ 0 0 0 0 0,
   .RunLowLevel 0 ⟨0, 0⟩ 0,
   .Closure ⟨0, 0⟩ 0 0 0 0 0,
   .Record 0 ⟨0, 0⟩,
   .EmptyRecord,
   .Access ⟨0, 0⟩ 0 0 0 0,
   .Accessor 0 0 ⟨0, 0⟩ 0 0 0,
   .Update 0 ⟨0, 0⟩ 0 0,
   .GlobalTag ⟨0, 0⟩ 0 0 ⟨0, 0⟩,
   .PrivateTag 0 0 0 ⟨0, 0⟩,
   .RuntimeError]

/-- `size_of::<Expr2>()` in the documented layout: the 1-byte discriminant
plus the largest variant payload. -/
def size_of_Expr2 : Nat :=
  (expr2Variants.map (fun e => 1 + payloadBytes e)).foldr Nat.max 0

/-- A UTF-8 continuation byte (`10xxxxxx`). -/
def isUtf8Cont (b : Nat) : Bool := 128 ≤ b && b < 192

/-- Structural UTF-8 validity of a byte sequence (lead-byte classes and
continuation-byte counts). Used to exhibit byte sequences that are not valid
UTF-8 yet are returned unchanged by the string decoder. -/
def utf8Valid : List Nat → Bool
  | [] => true
  | b :: rest =>
    if b < 128 then utf8Valid rest
    else if b < 192 then false
    else if b < 224 then
      match rest with
      | c1 :: rest2 => isUtf8Cont c1 && utf8Valid rest2
      | [] => false
    else if b < 240 then
      match rest with
      | c1 :: c2 :: rest2 => isUtf8Cont c1 && isUtf8Cont c2 && utf8Valid rest2
      | _ => false
    else if b < 248 then
      match rest with
      | c1 :: c2 :: c3 :: rest2 =>
          isUtf8Cont c1 && isUtf8Cont c2 && isUtf8Cont c3 && utf8Valid rest2
      | _ => false
    else false

/-- A concrete buffer whose string slot at address 0 is a large string
descriptor: offset word 100, length word 1, capacity word 0 (tag byte 0),
and whose byte at address 100 is `0xFF` — not valid UTF-8. -/
def memFF : Mem :=
  fun i => if i = 0 then 100 else if i = 8 then 1 else if i = 100 then 255 else 0

/-! ### Helper lemmas -/

/-- A stored byte is below 256. -/
theorem byteAt_lt (m : Mem) (a : Nat) : byteAt m a < 256 :=
  Nat.mod_lt _ (by decide)

/-- A one-byte little-endian read is the byte itself. -/
theorem readLE_one (m : Mem) (a : Nat) : readLE m a 1 = byteAt m a := by
  simp [readLE]

/-- An 8-bit two's-complement value is negative exactly when its top
(sign) bit is set. -/
theorem toSigned8_neg_iff (v : Nat) (h : v < 256) :
    toSigned 8 v < 0 ↔ 128 ≤ v := by
  have h2 : toSigned 8 v = if v < 128 then (v : Int) else (v : Int) - 256 := by
    norm_num [toSigned]
  rw [h2]
  split <;> omega

/-! ### Claim theorems -/

/-- C1. `deref_str` reads the fixed 3-word (24-byte) slot at the given
offset and branches on the sign of the slot's highest-addressed byte: if the
sign bit is set it decodes an inline small string of length given by the
remaining bits of the tag byte; otherwise the slot is (offset, length,
capacity) words and the result is exactly the `length` bytes at
`base + offset`, with the capacity word read but never influencing the
result — equivalently, `deref_str` coincides with the spec-side decoder
`deref_str_spec`, which never consults the capacity word. -/
theorem deref_str_slot_spec_equiv :
    STR_WIDTH = 24 ∧
    ∀ (em : ExpectMemory) (addr : Nat),
      em.deref_str addr = deref_str_spec em addr := by
  refine ⟨rfl, fun em addr => ?_⟩
  have hlt := byteAt_lt em.start (addr + STR_WIDTH - 1)
  simp only [ExpectMemory.deref_str, deref_str_spec, ExpectMemory.deref_i8,
    ExpectMemory.deref_usize, rocStrSmallAsStr, readLE_one]
  by_cases h : 128 ≤ byteAt em.start (addr + STR_WIDTH - 1)
  · rw [if_pos ((toSigned8_neg_iff _ hlt).mpr h), if_pos h]
    exact congrArg (readBytes em.start addr) (by omega)
  · rw [if_neg (fun hc => h ((toSigned8_neg_iff _ hlt).mp hc)), if_neg h]

/-- C2. Every variant of `Expr2` fits the fixed node budget — a 1-byte
discriminant plus at most 31 payload bytes — and the size of `Expr2` (the
discriminant plus the largest variant payload) equals `NODE_BYTES` = 32
exactly. -/
theorem expr2_node_budget :
    (∀ e : Expr2, 1 + payloadBytes e ≤ NODE_BYTES) ∧
      size_of_Expr2 = NODE_BYTES := by
  constructor
  · intro e
    cases e <;> simp only [payloadBytes] <;> decide
  · decide

/-- C3. Every primitive `deref_*` read is an unaligned reinterpretation of
exactly `sizeof(T)` bytes at the given offset: at every byte offset `a`
(aligned or not), reading back a just-written value returns its exact bit
pattern — reduced to the type's width, and reinterpreted in two's complement
for the signed types. -/
theorem deref_primitive_roundtrip :
    ∀ (m : Mem) (a v : Nat) (b : Bool),
      (ExpectMemory.mk (writeLE m a 1 v)).deref_u8 a = v % 2 ^ 8 ∧
      (ExpectMemory.mk (writeLE m a 2 v)).deref_u16 a = v % 2 ^ 16 ∧
      (ExpectMemory.mk (writeLE m a 4 v)).deref_u32 a = v % 2 ^ 32 ∧
      (ExpectMemory.mk (writeLE m a 8 v)).deref_u64 a = v % 2 ^ 64 ∧
      (ExpectMemory.mk (writeLE m a 16 v)).deref_u128 a = v % 2 ^ 128 ∧
      (ExpectMemory.mk (writeLE m a 8 v)).deref_usize a = v % 2 ^ 64 ∧
      (ExpectMemory.mk (writeLE m a 1 v)).deref_i8 a = toSigned 8 (v % 2 ^ 8) ∧
      (ExpectMemory.mk (writeLE m a 2 v)).deref_i16 a = toSigned 16 (v % 2 ^ 16) ∧
      (ExpectMemory.mk (writeLE m a 4 v)).deref_i32 a = toSigned 32 (v % 2 ^ 32) ∧
      (ExpectMemory.mk (writeLE m a 8 v)).deref_i64 a = toSigned 64 (v % 2 ^ 64) ∧
      (ExpectMemory.mk (writeLE m a 16 v)).deref_i128 a = toSigned 128 (v % 2 ^ 128) ∧
      (ExpectMemory.mk (writeLE m a 8 v)).deref_isize a = toSigned 64 (v % 2 ^ 64) ∧
      (ExpectMemory.mk (writeLE m a 4 v)).deref_f32 a = v % 2 ^ 32 ∧
      (ExpectMemory.mk (writeLE m a 8 v)).deref_f64 a = v % 2 ^ 64 ∧
      (ExpectMemory.mk (writeLE m a 1 (if b then 1 else 0))).deref_bool a = b := by
  intro m a v b
  refine ⟨readLE_writeLE_pow 1 m a v, readLE_writeLE_pow 2 m a v,
    readLE_writeLE_pow 4 m a v, readLE_writeLE_pow 8 m a v,
    readLE_writeLE_pow 16 m a v, readLE_writeLE_pow 8 m a v,
    congrArg (toSigned 8) (readLE_writeLE_pow 1 m a v),
    congrArg (toSigned 16) (readLE_writeLE_pow 2 m a v),
    congrArg (toSigned 32) (readLE_writeLE_pow 4 m a v),
    congrArg (toSigned 64) (readLE_writeLE_pow 8 m a v),
    congrArg (toSigned 128) (readLE_writeLE_pow 16 m a v),
    congrArg (toSigned 64) (readLE_writeLE_pow 8 m a v), ?_, ?_, ?_⟩
  · exact readLE_writeLE_pow 4 m a v
  · exact readLE_writeLE_pow 8 m a v
  · cases b <;>
      simp [ExpectMemory.deref_bool, writeLE, Mem.update, byteAt]

/-- C4. `call_function_dynamic_size` is a pure pass-through: it applies the
transform exactly once, to the decoder's memory and its stored offset
unchanged, reads no memory itself, and its result does not depend on the
function name or on the size argument. -/
theorem call_function_dynamic_size_passthrough :
    ∀ {T : Type} (app : ExpectReplApp) (n1 n2 : String) (s1 s2 : Nat)
      (tr : ExpectMemory → Nat → T),
      (call_function_dynamic_size app n1 s1 tr).1 = tr app.memory app.offset ∧
      call_function_dynamic_size app n1 s1 tr =
        call_function_dynamic_size app n2 s2 tr :=
  fun _ _ _ _ _ _ => ⟨rfl, rfl⟩

/-- C5. `call_function_returns_roc_str` equals `call_function_dynamic_size`
applied with the fixed 24-byte slot size, for every memory, offset,
target info and transform. -/
theorem roc_str_decode_is_dynamic_size_24 :
    ∀ {T : Type} (app : ExpectReplApp) (ti : TargetInfo) (n : String)
      (tr : ExpectMemory → Nat → T),
      call_function_returns_roc_str app ti n tr =
        call_function_dynamic_size app n 24 tr :=
  fun _ _ _ _ => rfl

/-- C6. `call_function_returns_roc_list` hands its transform the
(offset, length, capacity) triple read from the three consecutive machine
words starting at the stored result offset: component `i` is the word at
`offset + i * sizeof(usize)`. -/
theorem roc_list_decode_reads_word_triple :
    ∀ {T : Type} (app : ExpectReplApp) (n : String)
      (tr : ExpectMemory → Nat × Nat × Nat → T),
      app.offset % usizeBytes = 0 →
      (call_function_returns_roc_list app n tr).1 =
        some (tr app.memory
          (app.memory.deref_usize app.offset,
            app.memory.deref_usize (app.offset + usizeBytes),
            app.memory.deref_usize (app.offset + 2 * usizeBytes))) := by
  intro T app n tr h
  simp [call_function_returns_roc_list, call_function, readUsizeTriple, h]

/-- Closed witness for C6 at a concrete aligned offset and buffer. -/
theorem roc_list_decode_reads_word_triple_witness :
    (0 : Nat) % usizeBytes = 0 ∧
      (call_function_returns_roc_list ⟨⟨fun _ => 0⟩, 0⟩ "main"
        (fun _ t => t)).1 = some (0, 0, 0) :=
  ⟨rfl, roc_list_decode_reads_word_triple ⟨⟨fun _ => 0⟩, 0⟩ "main"
    (fun _ t => t) rfl⟩

/-- C7. `shallow_clone` on `ValueDef`, `FunctionDef` and `Rigids` returns a
value equal to the original: every direct scalar field and every handle
field (the same `NodeId` / `TypeId` / `PoolVec` targets) is copied verbatim,
no handle is followed to duplicate the referenced data, so the clone aliases
the same pooled data as the original. -/
theorem shallow_clone_aliases_original :
    ∀ (d : ValueDef) (f : FunctionDef) (r : Rigids),
      d.shallow_clone = d ∧ f.shallow_clone = f ∧ r.shallow_clone = r := by
  intro d f r
  refine ⟨?_, ?_, ?_⟩
  · obtain ⟨p, t, v⟩ := d
    cases t with
    | none => rfl
    | some x => rfl
  · cases f <;> rfl
  · rfl

/-- C8. Every decode entry point leaves the decoder's state — its memory
view and stored result offset — unchanged, and repeating the same call on
the resulting state returns an equal result. -/
theorem decoder_entry_points_preserve_state :
    ∀ {R T : Type} (app : ExpectReplApp) (align : Nat)
      (reader : ExpectMemory → Nat → R) (n : String)
      (tra : ExpectMemory → R → T) (trb : ExpectMemory → Nat × Nat × Nat → T)
      (ti : TargetInfo) (trc : ExpectMemory → Nat → T) (s : Nat),
      (call_function app align reader n tra).2 = app ∧
      (call_function_returns_roc_list app n trb).2 = app ∧
      (call_function_returns_roc_str app ti n trc).2 = app ∧
      (call_function_dynamic_size app n s trc).2 = app ∧
      (call_function (call_function app align reader n tra).2 align reader n
          tra).1 = (call_function app align reader n tra).1 ∧
      (call_function_returns_roc_list
          (call_function_returns_roc_list app n trb).2 n trb).1 =
        (call_function_returns_roc_list app n trb).1 ∧
      (call_function_returns_roc_str
          (call_function_returns_roc_str app ti n trc).2 ti n trc).1 =
        (call_function_returns_roc_str app ti n trc).1 ∧
      (call_function_dynamic_size
          (call_function_dynamic_size app n s trc).2 n s trc).1 =
        (call_function_dynamic_size app n s trc).1 :=
  fun _ _ _ _ _ _ _ _ _ => ⟨rfl, rfl, rfl, rfl, rfl, rfl, rfl, rfl⟩

/-- C9. `call_function` performs an aligned (`std::ptr::read`) load of the
return value at the stored offset: it is defined (returns `some`) exactly
when the offset is aligned for the return type, and at an aligned offset it
hands the transform the value loaded there — unlike the `deref_*`
primitives, whose reads are unaligned and total. -/
theorem call_function_aligned_read_definedness :
    ∀ {R T : Type} (app : ExpectReplApp) (align : Nat)
      (reader : ExpectMemory → Nat → R) (n : String)
      (tr : ExpectMemory → R → T),
      ((call_function app align reader n tr).1.isSome ↔
        app.offset % align = 0) ∧
      (app.offset % align = 0 →
        (call_function app align reader n tr).1 =
          some (tr app.memory (reader app.memory app.offset))) := by
  intro R T app align reader n tr
  by_cases h : app.offset % align = 0 <;>
    simp [call_function, h]

/-- Closed witness for C9 at a concrete aligned offset. -/
theorem call_function_aligned_read_definedness_witness :
    (0 : Nat) % 8 = 0 ∧
      (call_function ⟨⟨fun _ => 0⟩, 0⟩ 8 (fun em a => em.deref_u64 a) "main"
        (fun _ r => r)).1 = some 0 :=
  ⟨rfl, (call_function_aligned_read_definedness ⟨⟨fun _ => 0⟩, 0⟩ 8
    (fun em a => em.deref_u64 a) "main" (fun _ r => r)).2 rfl⟩

/-- C10. `deref_str` never validates UTF-8 and has no error result: in the
out-of-line case it returns exactly the `length` raw bytes at
`base + offset` whatever they are; in particular a buffer whose decoded
bytes are `[0xFF]` — not valid UTF-8 — is returned unchanged, never detected
or reported. -/
theorem deref_str_no_utf8_validation :
    (∀ (em : ExpectMemory) (addr : Nat),
        byteAt em.start (addr + STR_WIDTH - 1) < 128 →
        em.deref_str addr =
          readBytes em.start (em.deref_usize addr)
            (em.deref_usize (addr + usizeBytes))) ∧
    ((ExpectMemory.mk memFF).deref_str 0 = [255] ∧
      utf8Valid [255] = false) := by
  refine ⟨fun em addr h => ?_, by decide, rfl⟩
  have hlt := byteAt_lt em.start (addr + STR_WIDTH - 1)
  have hn : ¬ toSigned 8 (byteAt em.start (addr + STR_WIDTH - 1)) < 0 := by
    rw [toSigned8_neg_iff _ hlt]
    omega
  simp only [ExpectMemory.deref_str, ExpectMemory.deref_i8, readLE_one]
  rw [if_neg hn]

/-- Closed witness for C10 on the concrete buffer `memFF`. -/
theorem deref_str_no_utf8_validation_witness :
    byteAt memFF (0 + STR_WIDTH - 1) < 128 ∧
      (ExpectMemory.mk memFF).deref_str 0 =
        readBytes memFF ((ExpectMemory.mk memFF).deref_usize 0)
          ((ExpectMemory.mk memFF).deref_usize (0 + usizeBytes)) :=
  ⟨by decide, deref_str_no_utf8_validation.1 (ExpectMemory.mk memFF) 0
    (by decide)⟩

end RocVerify
